import Mathlib

/-!
Shallow embedding of the job-orchestration and audio-assembly core of the
BananaLecture backend (`backend/app`), together with theorems settling the
spec claims about it.

Conventions of the embedding:
* Python `float` progress values are modelled as `ℚ`.
* Wall-clock timestamps (`datetime.now()`) are modelled as an explicit
  `now : Nat` argument; `update_timestamp` stores it into `updated_at`.
* The in-memory task dict (`TaskService._tasks`) is a function
  `String → Option Task`; the durable JSON write that mirrors each mutation
  carries no extra information and is not modelled separately.
* Audio byte blobs are `List Nat`; `pydub` concatenation of segments
  (`AudioSegment.__add__` / `export`) is list append / flatten.
-/

namespace BananaLecture

/-- `TaskStatus` enum from `app/models/enums.py`. -/
inductive TaskStatus
  | pending
  | running
  | completed
  | failed
deriving DecidableEq

/-- `TaskType` enum from `app/models/enums.py`. -/
inductive TaskType
  | script_generation
  | audio_generation
deriving DecidableEq

/-- The `Task` pydantic model from `app/models/task.py` (with the
`BaseIdentifiedModel` fields `id` and `updated_at`; `created_at` is never
read by the services and is omitted). -/
structure Task where
  id : String
  type : TaskType
  status : TaskStatus
  progress : ℚ
  current_step : Nat
  total_steps : Nat
  error_message : Option String
  updated_at : Nat
deriving DecidableEq

/-- The in-memory task map `TaskService._tasks` from
`app/services/task_service.py`. -/
def TaskMap : Type := String → Option Task

/-- Store one task record under its id (`self._tasks[task.id] = task`
together with the mirrored `_save_task`). -/
def setTask (tasks : TaskMap) (task_id : String) (t : Task) : TaskMap :=
  fun x => if x = task_id then some t else tasks x

/-- `TaskService.create_task`: builds a fresh PENDING record and stores it.
The generated unique id is passed in as `new_id`. -/
def create_task (tasks : TaskMap) (new_id : String) (task_type : TaskType)
    (total_steps : Nat) (now : Nat) : Task × TaskMap :=
  let task : Task :=
    { id := new_id, type := task_type, status := .pending, progress := 0,
      current_step := 0, total_steps := total_steps, error_message := none,
      updated_at := now }
  (task, setTask tasks new_id task)

/-- `TaskService.get_task`: dictionary lookup, `None` when absent. -/
def get_task (tasks : TaskMap) (task_id : String) : Option Task :=
  tasks task_id

/-- `TaskService.update_task_status`: returns `False` and changes nothing
when the id is unknown; otherwise overwrites the status, clamps an optional
progress into `[0,1]` and an optional step count to `≥ 0`, sets or (on
RUNNING) clears the error message, bumps `updated_at` and stores the
record. -/
def update_task_status (tasks : TaskMap) (task_id : String) (status : TaskStatus)
    (progress : Option ℚ) (current_step : Option Int)
    (error_message : Option String) (now : Nat) : Bool × TaskMap :=
  match tasks task_id with
  | none => (false, tasks)
  | some task =>
    let task := { task with status := status }
    let task :=
      match progress with
      | some p => { task with progress := max 0 (min 1 p) }
      | none => task
    let task :=
      match current_step with
      | some c => { task with current_step := (max 0 c).toNat }
      | none => task
    let task :=
      match error_message with
      | some e => { task with error_message := some e }
      | none =>
        if status = TaskStatus.running then { task with error_message := none }
        else task
    let task := { task with updated_at := now }
    (true, setTask tasks task_id task)

/-- The record mutation performed by `TaskService.increment_task_progress`
on a found task: `current_step += 1`, then, when `total_steps > 0`,
`progress = min(1.0, current_step / total_steps)`, then
`update_timestamp()`. -/
def incrTask (task : Task) (now : Nat) : Task :=
  let task := { task with current_step := task.current_step + 1 }
  let task :=
    if task.total_steps > 0 then
      { task with
        progress := min 1 ((task.current_step : ℚ) / (task.total_steps : ℚ)) }
    else task
  { task with updated_at := now }

/-- `TaskService.increment_task_progress`: `False` and no change when the id
is unknown; otherwise applies `incrTask` and stores the record. -/
def increment_task_progress (tasks : TaskMap) (task_id : String) (now : Nat) :
    Bool × TaskMap :=
  match tasks task_id with
  | none => (false, tasks)
  | some task => (true, setTask tasks task_id (incrTask task now))

/-- `TaskService.cancel_task`: only PENDING or RUNNING tasks are cancelled
(status forced to FAILED with the sentinel message); anything else, including
an unknown id, yields `False` with no change. -/
def cancel_task (tasks : TaskMap) (task_id : String) (now : Nat) :
    Bool × TaskMap :=
  match tasks task_id with
  | none => (false, tasks)
  | some task =>
    if task.status = .pending ∨ task.status = .running then
      (true, setTask tasks task_id
        { task with status := .failed, error_message := some "任务已取消",
                    updated_at := now })
    else
      (false, tasks)

/-- A sequence of `increment_task_progress` record mutations on one task,
one per timestamp in `times`. -/
def applyIncrs (task : Task) (times : List Nat) : Task :=
  times.foldl incrTask task

/-! ### `TaskService.run_task_with_progress` call shape

`run_task_with_progress` opens with
`self.update_task_status(task_id, TaskStatus.RUNNING, total_steps=total_steps)`
when `total_steps > 0` and with
`self.update_task_status(task_id, TaskStatus.RUNNING)` otherwise.  Python
raises `TypeError` at a call site that passes a keyword argument the callee
does not declare, before the callee body runs.  We model the keyword
signature of `update_task_status` and the keyword arguments passed at that
call site. -/

/-- Optional keyword parameters declared by
`TaskService.update_task_status` (`app/services/task_service.py`). -/
def updateTaskStatusKeywordParams : List String :=
  ["progress", "current_step", "error_message"]

/-- Keyword arguments that `TaskService.run_task_with_progress` passes to
its opening `update_task_status` call, as a function of `total_steps`. -/
def runTaskStatusCallKwargs (total_steps : Nat) : List String :=
  if total_steps > 0 then ["total_steps"] else []

/-- A Python call raises `TypeError` exactly when some passed keyword is not
among the callee's declared keyword parameters. -/
def callRaisesTypeError (accepted passed : List String) : Bool :=
  passed.any (fun k => !(accepted.contains k))

/-- Outcome of the prelude of `run_task_with_progress`, i.e. everything it
does before awaiting the wrapped coroutine. -/
inductive RunTaskStart
  | typeErrorRaised
  | runningMarked (tasks : TaskMap)
deriving Nonempty

/-- Prelude of `TaskService.run_task_with_progress`: the opening
`update_task_status` call either raises `TypeError` (bad keyword) before
any state change, or marks the task RUNNING. -/
def runTaskWithProgressStart (tasks : TaskMap) (task_id : String)
    (total_steps : Nat) (now : Nat) : RunTaskStart :=
  if callRaisesTypeError updateTaskStatusKeywordParams
      (runTaskStatusCallKwargs total_steps) then
    .typeErrorRaised
  else
    .runningMarked
      (update_task_status tasks task_id .running none none none now).2

/-! ### Synthesis Client: `AudioClient._request_audio`
(`app/core/audio_client.py`)

Each loop iteration issues one `POST`; its result is either an HTTP
response or a raised exception.  The response carries the data the loop
inspects: the HTTP status code, whether `_is_api_response_valid` accepts the
parsed body, whether `binascii.unhexlify` succeeds on the audio field, and
the decoded bytes.  The Python function returns `None` on failure; the
embedding additionally records which exit point produced the failure (the
distinction the source itself draws in its per-branch logging), and how
many attempts (`POST` calls) were made. -/

/-- One HTTP response as inspected by `AudioClient._request_audio`. -/
structure ApiResponse where
  status_code : Nat
  body_ok : Bool
  decode_ok : Bool
  audio : List Nat
deriving DecidableEq

/-- What one `self.client.post(...)` call produces. -/
inductive CallResult
  | response (r : ApiResponse)
  | timeout
  | transportError
  | otherError
deriving DecidableEq

/-- Failure exit points of `AudioClient._request_audio`. -/
inductive FailureKind
  | rateLimited
  | clientError (code : Nat)
  | httpStatusError (code : Nat)
  | timeoutError
  | transportFailure
  | validationError
  | decodeFailure
  | unknownFailure
  | noAttempts
deriving DecidableEq

/-- Result of `AudioClient._request_audio` (`None` in Python corresponds to
`failure`, annotated with its exit point). -/
inductive RequestOutcome
  | success (audio : List Nat)
  | failure (k : FailureKind)
deriving DecidableEq

/-- The spec taxonomy classifies a failure as a `ServerError` when it is an
HTTP status error with a 5xx code. -/
def isServerErrorFailure : FailureKind → Bool
  | .httpStatusError code => 500 ≤ code
  | _ => false

/-- The `for attempt in range(1, max_retries + 1)` loop of
`AudioClient._request_audio`.  `attempt` is the Python loop variable,
`fuel` the number of iterations the `range` still has
(`fuel = max_retries + 1 - attempt`).  Branches, in source order: a 429
retries (or fails as rate-limited on the last attempt); any other 4xx
returns immediately; `response.raise_for_status()` raises
`httpx.HTTPStatusError` on every remaining non-2xx code, which the
`except httpx.HTTPError` arm turns into a retry; an invalid body
(`_is_api_response_valid`) retries; a failing `unhexlify` retries; a valid
2xx response succeeds.  Raised `TimeoutException` / other `HTTPError` /
other exceptions retry via their own `except` arms.  Returns the outcome and
the number of attempts made. -/
def requestAudioLoop (calls : Nat → CallResult) (max_retries : Nat) :
    Nat → Nat → RequestOutcome × Nat
  | attempt, 0 => (.failure .noAttempts, attempt - 1)
  | attempt, fuel + 1 =>
    let retryOrFail (k : FailureKind) : RequestOutcome × Nat :=
      if attempt < max_retries then
        requestAudioLoop calls max_retries (attempt + 1) fuel
      else (.failure k, attempt)
    match calls attempt with
    | .timeout => retryOrFail .timeoutError
    | .transportError => retryOrFail .transportFailure
    | .otherError => retryOrFail .unknownFailure
    | .response r =>
      if r.status_code = 429 then
        retryOrFail .rateLimited
      else if 400 ≤ r.status_code ∧ r.status_code < 500 then
        (.failure (.clientError r.status_code), attempt)
      else if ¬ (200 ≤ r.status_code ∧ r.status_code < 300) then
        retryOrFail (.httpStatusError r.status_code)
      else if !r.body_ok then
        retryOrFail .validationError
      else if !r.decode_ok then
        retryOrFail .decodeFailure
      else
        (.success r.audio, attempt)

/-- `AudioClient._request_audio`: runs the attempt loop from attempt 1. -/
def request_audio (calls : Nat → CallResult) (max_retries : Nat) :
    RequestOutcome × Nat :=
  requestAudioLoop calls max_retries 1 max_retries

/-- Default constructor arguments of `AudioClient.__init__`
(`max_retries=3, base_delay=5.0, max_delay=60.0, exponential_base=2.0`). -/
def defaultMaxRetries : Nat := 3

/-- Default `base_delay` of `AudioClient.__init__`. -/
def defaultBaseDelay : ℚ := 5

/-- Default `max_delay` of `AudioClient.__init__`. -/
def defaultMaxDelay : ℚ := 60

/-- Default `exponential_base` of `AudioClient.__init__`. -/
def defaultExponentialBase : ℚ := 2

/-- The capped exponential delay computed by
`AudioClient._exponential_backoff`:
`min(base_delay * (exponential_base ** (attempt - 1)), max_delay)`. -/
def backoffDelay (base_delay exponential_base max_delay : ℚ)
    (attempt : Nat) : ℚ :=
  min (base_delay * exponential_base ^ (attempt - 1)) max_delay

/-- The total time slept by `AudioClient._exponential_backoff`:
the capped delay plus the sampled jitter
(`random.uniform(0, 0.1 * delay)`), the jitter being passed in as `jitter`. -/
def backoffTotalDelay (base_delay exponential_base max_delay : ℚ)
    (attempt : Nat) (jitter : ℚ) : ℚ :=
  backoffDelay base_delay exponential_base max_delay attempt + jitter

/-! ### Page-artifact assembly

`AudioService._regenerate_page_audio` (`app/services/audio_service.py`) and
`ScriptService._regenerate_page_audio_after_move` /
`_regenerate_page_audio_after_deletion` (`app/services/script_service.py`;
the latter two have identical bodies).  The relevant slice of the file
system for one `(project, page)` is: the page script (an ordered list of
dialogue ids, from `script_NNN.json`), the per-dialogue audio files
`page_NNN/{id}.mp3`, the copied lead-in `page_NNN/beigin.mp3`, and the
merged page audio `page_NNN.mp3`.  The bundled lead-in asset
`assets/cues.mp3` is the `cues` argument (`none` when the file does not
exist). -/

/-- File-system slice for one project page. -/
structure PageAudioState where
  script : Option (List String)
  unitAudio : String → Option (List Nat)
  beigin : Option (List Nat)
  pageAudio : Option (List Nat)

/-- `AudioService.merge_audio_files`: starts from an empty segment and
appends each file's audio in list order. -/
def merge_audio_files (files : List (List Nat)) : List Nat :=
  files.flatten

/-- The `beigin.mp3` content after the lead-in block of
`AudioService._regenerate_page_audio`: on page 1, when the `cues.mp3` asset
exists, the asset is copied to `beigin.mp3` unless that file already
exists. -/
def copyCuesIfMissing (cues : Option (List Nat)) (page_number : Nat)
    (beigin : Option (List Nat)) : Option (List Nat) :=
  if page_number = 1 ∧ cues.isSome then
    match beigin with
    | some b => some b
    | none => cues
  else beigin

/-- The lead-in entries of the `audio_files` list: on page 1, when the
`cues.mp3` asset exists, the `beigin.mp3` file is appended if it exists. -/
def leadInFiles (cues : Option (List Nat)) (page_number : Nat)
    (beigin : Option (List Nat)) : List (List Nat) :=
  if page_number = 1 ∧ cues.isSome then
    match beigin with
    | some b => [b]
    | none => []
  else []

/-- `AudioService._regenerate_page_audio`: raises when the script file is
missing; otherwise ensures the page-1 lead-in copy, collects the lead-in
(if any) followed by the audio files of exactly those dialogues, in script
order, whose file exists, and, when that list is non-empty, merges it into
the page audio.  When the list is empty it only logs a warning. -/
def regenerate_page_audio (cues : Option (List Nat)) (page_number : Nat)
    (s : PageAudioState) : Except String PageAudioState :=
  match s.script with
  | none => .error "脚本文件不存在"
  | some dialogues =>
    let beigin2 := copyCuesIfMissing cues page_number s.beigin
    let audio_files :=
      leadInFiles cues page_number beigin2 ++ dialogues.filterMap s.unitAudio
    if audio_files.isEmpty then
      .ok { s with beigin := beigin2 }
    else
      .ok { s with beigin := beigin2,
                   pageAudio := some (merge_audio_files audio_files) }

/-- `ScriptService._regenerate_page_audio_after_move`: returns silently when
the script file is missing; otherwise collects the page-1 lead-in only if
`beigin.mp3` already exists (no copy), followed by the audio files of
exactly those dialogues, in the new script order, whose file exists, and,
when non-empty, merges them into the page audio; otherwise only logs. -/
def regenerate_page_audio_after_move (cues : Option (List Nat))
    (page_number : Nat) (s : PageAudioState) : PageAudioState :=
  match s.script with
  | none => s
  | some dialogues =>
    let audio_files :=
      leadInFiles cues page_number s.beigin ++ dialogues.filterMap s.unitAudio
    if audio_files.isEmpty then s
    else { s with pageAudio := some (merge_audio_files audio_files) }

/-- `ScriptService._regenerate_page_audio_after_deletion`: its body is
line-for-line the body of `_regenerate_page_audio_after_move`. -/
def regenerate_page_audio_after_deletion (cues : Option (List Nat))
    (page_number : Nat) (s : PageAudioState) : PageAudioState :=
  regenerate_page_audio_after_move cues page_number s

/-! ## Helper lemmas about the registry operations -/

theorem incrTask_current_step (t : Task) (now : Nat) :
    (incrTask t now).current_step = t.current_step + 1 := by
  simp only [incrTask]
  split <;> rfl

theorem incrTask_total_steps (t : Task) (now : Nat) :
    (incrTask t now).total_steps = t.total_steps := by
  simp only [incrTask]
  split <;> rfl

theorem incrTask_status (t : Task) (now : Nat) :
    (incrTask t now).status = t.status := by
  simp only [incrTask]
  split <;> rfl

theorem incrTask_updated_at (t : Task) (now : Nat) :
    (incrTask t now).updated_at = now := by
  simp only [incrTask]

theorem incrTask_progress (t : Task) (now : Nat) :
    (incrTask t now).progress =
      if 0 < t.total_steps then
        min 1 (((t.current_step + 1 : Nat) : ℚ) / (t.total_steps : ℚ))
      else t.progress := by
  simp only [incrTask]
  split <;> rfl

theorem incrTask_progress_le_one (t : Task) (now : Nat) (h : t.progress ≤ 1) :
    (incrTask t now).progress ≤ 1 := by
  rw [incrTask_progress]
  split
  · exact min_le_left _ _
  · exact h

theorem incrTask_progress_mono (t : Task) (now now2 : Nat) :
    (incrTask t now).progress ≤ (incrTask (incrTask t now) now2).progress := by
  rw [incrTask_progress (incrTask t now) now2, incrTask_total_steps,
    incrTask_current_step, incrTask_progress t now]
  by_cases h : 0 < t.total_steps
  · simp only [h, if_true]
    refine min_le_min le_rfl ?_
    have hc : (0 : ℚ) < (t.total_steps : ℚ) := by exact_mod_cast h
    refine (div_le_div_iff_of_pos_right hc).mpr ?_
    exact_mod_cast Nat.le_succ _
  · simp only [h, if_false]
    exact le_rfl

theorem applyIncrs_nil (t : Task) : applyIncrs t [] = t := rfl

theorem applyIncrs_cons (t : Task) (n : Nat) (ns : List Nat) :
    applyIncrs t (n :: ns) = applyIncrs (incrTask t n) ns := rfl

theorem applyIncrs_progress_le_one (t : Task) (times : List Nat)
    (h : t.progress ≤ 1) : (applyIncrs t times).progress ≤ 1 := by
  induction times generalizing t with
  | nil => exact h
  | cons n ns ih => exact ih _ (incrTask_progress_le_one t n h)

theorem applyIncrs_current_step (t : Task) (times : List Nat) :
    (applyIncrs t times).current_step = t.current_step + times.length := by
  induction times generalizing t with
  | nil => rfl
  | cons n ns ih =>
    rw [applyIncrs_cons, ih, incrTask_current_step, List.length_cons]
    omega

theorem applyIncrs_total_steps (t : Task) (times : List Nat) :
    (applyIncrs t times).total_steps = t.total_steps := by
  induction times generalizing t with
  | nil => rfl
  | cons n ns ih => rw [applyIncrs_cons, ih, incrTask_total_steps]

/-! ## Claims about the Job Registry -/

/-- A COMPLETED (terminal) task record, with its steps fully consumed. -/
def completedTask : Task :=
  { id := "t1", type := .audio_generation, status := .completed, progress := 1,
    current_step := 3, total_steps := 3, error_message := none,
    updated_at := 10 }

/-- A registry holding only `completedTask`. -/
def completedTaskMap : TaskMap :=
  fun x => if x = "t1" then some completedTask else none

/-- C2 counterexample: `increment_task_progress` on a COMPLETED job returns
`True` and mutates the record (`current_step` 3 → 4, `updated_at` 10 → 11),
contradicting the claim that the call returns false and leaves the terminal
record unchanged. -/
theorem increment_on_completed_task_counterexample :
    (increment_task_progress completedTaskMap "t1" 11).1 = true ∧
    ((increment_task_progress completedTaskMap "t1" 11).2 "t1").map
      Task.current_step = some 4 ∧
    ((increment_task_progress completedTaskMap "t1" 11).2 "t1").map
      Task.updated_at = some 11 := by
  refine ⟨rfl, ?_, ?_⟩ <;> decide

/-- C2 amended: `increment_task_progress` never inspects the status, so on
an existing job in a terminal state it still returns `True` and stores a
mutated record — `current_step` is incremented and `updated_at` bumped,
with the status itself left unchanged; only an unknown id yields `False`. -/
theorem increment_on_terminal_task_mutates (tasks : TaskMap)
    (task_id : String) (t : Task) (now : Nat) (hfind : tasks task_id = some t)
    (hterm : t.status = TaskStatus.completed ∨ t.status = TaskStatus.failed) :
    (increment_task_progress tasks task_id now).1 = true ∧
    (increment_task_progress tasks task_id now).2 task_id =
      some (incrTask t now) ∧
    (incrTask t now).current_step = t.current_step + 1 ∧
    (incrTask t now).status = t.status ∧
    (incrTask t now).updated_at = now := by
  unfold increment_task_progress
  rw [hfind]
  refine ⟨rfl, ?_, incrTask_current_step t now, incrTask_status t now,
    incrTask_updated_at t now⟩
  simp [setTask]

/-- Witness for C2 amended, at the COMPLETED record `completedTask`. -/
theorem increment_on_terminal_task_mutates_witness :
    (completedTaskMap "t1" = some completedTask ∧
      (completedTask.status = TaskStatus.completed ∨
       completedTask.status = TaskStatus.failed)) ∧
    ((increment_task_progress completedTaskMap "t1" 11).1 = true ∧
     (increment_task_progress completedTaskMap "t1" 11).2 "t1" =
       some (incrTask completedTask 11) ∧
     (incrTask completedTask 11).current_step =
       completedTask.current_step + 1 ∧
     (incrTask completedTask 11).status = completedTask.status ∧
     (incrTask completedTask 11).updated_at = 11) :=
  ⟨⟨rfl, Or.inl rfl⟩,
    increment_on_terminal_task_mutates completedTaskMap "t1" completedTask 11
      rfl (Or.inl rfl)⟩

/-- C5: along any sequence of increment calls on one job (whose stored
progress is, as always for reachable records, at most 1), every observed
progress value is at most 1.0 and each is at most the next one: the observed
progress sequence is non-decreasing and bounded by 1.0. -/
theorem increment_progress_monotone_bounded (t : Task) (h : t.progress ≤ 1)
    (times : List Nat) (now now2 : Nat) :
    (incrTask (applyIncrs t times) now).progress ≤ 1 ∧
    (incrTask (applyIncrs t times) now).progress ≤
      (incrTask (incrTask (applyIncrs t times) now) now2).progress :=
  ⟨incrTask_progress_le_one _ _ (applyIncrs_progress_le_one t times h),
    incrTask_progress_mono _ _ _⟩

/-- A fresh RUNNING job with three steps, none consumed yet. -/
def sampleRunningTask : Task :=
  { id := "t3", type := .audio_generation, status := .running, progress := 0,
    current_step := 0, total_steps := 3, error_message := none,
    updated_at := 0 }

/-- Witness for C5 at a concrete job and a concrete increment sequence. -/
theorem increment_progress_monotone_bounded_witness :
    sampleRunningTask.progress ≤ 1 ∧
    ((incrTask (applyIncrs sampleRunningTask [4, 5]) 6).progress ≤ 1 ∧
     (incrTask (applyIncrs sampleRunningTask [4, 5]) 6).progress ≤
       (incrTask (incrTask (applyIncrs sampleRunningTask [4, 5]) 6)
         7).progress) :=
  ⟨by norm_num [sampleRunningTask],
    increment_progress_monotone_bounded sampleRunningTask
      (by norm_num [sampleRunningTask]) [4, 5] 6 7⟩

/-- A RUNNING job with `total_steps = 1`. -/
def oneStepTask : Task :=
  { id := "t2", type := .audio_generation, status := .running, progress := 0,
    current_step := 0, total_steps := 1, error_message := none,
    updated_at := 0 }

/-- A registry holding only `oneStepTask`. -/
def oneStepTaskMap : TaskMap :=
  fun x => if x = "t2" then some oneStepTask else none

/-- C6 counterexample: two increment calls on a job with `total_steps = 1`
drive `current_step` to 2 > 1 = `total_steps`, breaking the claimed
invariant `current_step ≤ total_steps`. -/
theorem current_step_exceeds_total_steps_counterexample :
    ((increment_task_progress
        ((increment_task_progress oneStepTaskMap "t2" 1).2) "t2" 2).2
      "t2").map Task.current_step = some 2 ∧
    ((increment_task_progress
        ((increment_task_progress oneStepTaskMap "t2" 1).2) "t2" 2).2
      "t2").map Task.total_steps = some 1 := by
  constructor <;> decide

/-- C6 amended: `increment_task_progress` never clamps `current_step`
against `total_steps` — after any sequence of increments `current_step`
equals the initial value plus the number of calls, while `total_steps` is
unchanged, so enough increments exceed any `total_steps`; only `progress`
is capped (at 1.0, via min). -/
theorem increment_grows_current_step_unboundedly (t : Task)
    (times : List Nat) :
    (applyIncrs t times).current_step = t.current_step + times.length ∧
    (applyIncrs t times).total_steps = t.total_steps :=
  ⟨applyIncrs_current_step t times, applyIncrs_total_steps t times⟩

/-- The empty registry. -/
def emptyTaskMap : TaskMap := fun _ => none

/-- C9: on an id not present in the registry, `get_task` returns `None` and
`increment_task_progress`, `update_task_status` and `cancel_task` each
return `False` with the registry left unchanged; all four are total
functions of the lookup, raising nothing. -/
theorem unknown_id_operations_notfound (tasks : TaskMap) (task_id : String)
    (h : tasks task_id = none) (status : TaskStatus) (progress : Option ℚ)
    (current_step : Option Int) (error_message : Option String) (now : Nat) :
    get_task tasks task_id = none ∧
    increment_task_progress tasks task_id now = (false, tasks) ∧
    update_task_status tasks task_id status progress current_step
      error_message now = (false, tasks) ∧
    cancel_task tasks task_id now = (false, tasks) := by
  unfold get_task increment_task_progress update_task_status cancel_task
  rw [h]
  exact ⟨rfl, rfl, rfl, rfl⟩

/-- Witness for C9 at the empty registry. -/
theorem unknown_id_operations_notfound_witness :
    emptyTaskMap "missing" = none ∧
    (get_task emptyTaskMap "missing" = none ∧
     increment_task_progress emptyTaskMap "missing" 0 =
       (false, emptyTaskMap) ∧
     update_task_status emptyTaskMap "missing" TaskStatus.running none none
       none 0 = (false, emptyTaskMap) ∧
     cancel_task emptyTaskMap "missing" 0 = (false, emptyTaskMap)) :=
  ⟨rfl, unknown_id_operations_notfound emptyTaskMap "missing" rfl
    TaskStatus.running none none none 0⟩

/-- C10: the opening `update_task_status` call of `run_task_with_progress`
passes the keyword `total_steps` exactly when `total_steps > 0`, a keyword
`update_task_status` does not declare, so the call raises `TypeError` before
the registry is touched (the job is never marked RUNNING) if and only if
`total_steps > 0`; with `total_steps = 0` it proceeds and marks the job
RUNNING. -/
theorem run_task_with_progress_total_steps_type_error (tasks : TaskMap)
    (task_id : String) (total_steps now : Nat) :
    (runTaskWithProgressStart tasks task_id total_steps now =
        RunTaskStart.typeErrorRaised ↔ 0 < total_steps) ∧
    runTaskWithProgressStart tasks task_id total_steps now =
      (if 0 < total_steps then RunTaskStart.typeErrorRaised
       else RunTaskStart.runningMarked
         (update_task_status tasks task_id TaskStatus.running none none none
           now).2) := by
  have hbad :
      callRaisesTypeError updateTaskStatusKeywordParams ["total_steps"] =
        true := by decide
  have hok :
      callRaisesTypeError updateTaskStatusKeywordParams [] = false := by
    decide
  unfold runTaskWithProgressStart runTaskStatusCallKwargs
  by_cases h : 0 < total_steps
  · simp [h, hbad]
  · simp [h, hok]

/-! ## Claims about the Synthesis Client -/

/-- C3: when every issued request comes back as an HTTP 500 response, the
client configured with `max_retries = 3` (the default) makes exactly 3
attempts and returns a failure whose exit point is the status error of the
last 500 — classified as a `ServerError` by the spec taxonomy.  The loop is
a total function into `RequestOutcome × Nat`: every exception the attempt
can raise is consumed by a `retryOrFail` arm, so nothing escapes the retry
loop. -/
theorem server_error_exhausts_three_attempts (calls : Nat → CallResult)
    (h : ∀ n, ∃ r : ApiResponse, calls n = .response r ∧
      r.status_code = 500) :
    request_audio calls defaultMaxRetries =
      (.failure (.httpStatusError 500), 3) ∧
    isServerErrorFailure (.httpStatusError 500) = true := by
  obtain ⟨r1, h1, hs1⟩ := h 1
  obtain ⟨r2, h2, hs2⟩ := h 2
  obtain ⟨r3, h3, hs3⟩ := h 3
  refine ⟨?_, by decide⟩
  unfold request_audio defaultMaxRetries
  simp [requestAudioLoop, h1, h2, h3, hs1, hs2, hs3]

/-- A network that answers every request with a bare HTTP 500. -/
def always500Calls : Nat → CallResult :=
  fun _ => .response ⟨500, false, false, []⟩

/-- Witness for C3 on the always-500 network. -/
theorem server_error_exhausts_three_attempts_witness :
    (∀ n, ∃ r : ApiResponse, always500Calls n = .response r ∧
      r.status_code = 500) ∧
    (request_audio always500Calls defaultMaxRetries =
      (.failure (.httpStatusError 500), 3) ∧
     isServerErrorFailure (.httpStatusError 500) = true) :=
  ⟨fun _ => ⟨⟨500, false, false, []⟩, rfl, rfl⟩,
    server_error_exhausts_three_attempts always500Calls
      (fun _ => ⟨⟨500, false, false, []⟩, rfl, rfl⟩)⟩

/-- C4: an HTTP 4xx response other than 429 on the first attempt makes the
client return the client-error failure immediately: exactly 1 attempt, no
retry, for any positive `max_retries`. -/
theorem client_error_single_attempt (calls : Nat → CallResult)
    (max_retries : Nat) (r : ApiResponse) (h1 : calls 1 = .response r)
    (h400 : 400 ≤ r.status_code) (h500 : r.status_code < 500)
    (h429 : r.status_code ≠ 429) (hmax : 0 < max_retries) :
    request_audio calls max_retries =
      (.failure (.clientError r.status_code), 1) := by
  unfold request_audio
  obtain ⟨f, rfl⟩ : ∃ f, max_retries = f + 1 :=
    ⟨max_retries - 1, (Nat.succ_pred_eq_of_pos hmax).symm⟩
  simp [requestAudioLoop, h1, h429, h400, h500]

/-- A network that answers every request with a bare HTTP 400. -/
def always400Calls : Nat → CallResult :=
  fun _ => .response ⟨400, false, false, []⟩

/-- Witness for C4 on the always-400 network with the default 3 retries. -/
theorem client_error_single_attempt_witness :
    (always400Calls 1 = .response ⟨400, false, false, []⟩ ∧
     400 ≤ (400 : Nat) ∧ (400 : Nat) < 500 ∧ (400 : Nat) ≠ 429 ∧
     0 < defaultMaxRetries) ∧
    request_audio always400Calls defaultMaxRetries =
      (.failure (.clientError 400), 1) :=
  ⟨⟨rfl, by norm_num, by norm_num, by norm_num, by decide⟩,
    client_error_single_attempt always400Calls defaultMaxRetries
      ⟨400, false, false, []⟩ rfl (by norm_num) (by norm_num) (by norm_num)
      (by decide)⟩

/-- C8: with the default configuration (`base_delay = 5`,
`exponential_base = 2`, `max_delay = 60`), the backoff before the next
attempt is `delay = min(5 * 2^(attempt-1), 60)`, and for any sampled jitter
in `[0, 0.1 * delay]` the total slept time lies in `[delay, 1.1 * delay]`
and never exceeds `1.1 * max_delay`. -/
theorem exponential_backoff_delay_bounds (attempt : Nat) (jitter : ℚ)
    (hj0 : 0 ≤ jitter)
    (hj1 : jitter ≤ (1 / 10) * backoffDelay defaultBaseDelay
      defaultExponentialBase defaultMaxDelay attempt) :
    backoffDelay defaultBaseDelay defaultExponentialBase defaultMaxDelay
        attempt ≤
      backoffTotalDelay defaultBaseDelay defaultExponentialBase
        defaultMaxDelay attempt jitter ∧
    backoffTotalDelay defaultBaseDelay defaultExponentialBase defaultMaxDelay
        attempt jitter ≤
      (11 / 10) * backoffDelay defaultBaseDelay defaultExponentialBase
        defaultMaxDelay attempt ∧
    backoffTotalDelay defaultBaseDelay defaultExponentialBase defaultMaxDelay
        attempt jitter ≤ (11 / 10) * defaultMaxDelay := by
  have hd0 : 0 ≤ backoffDelay defaultBaseDelay defaultExponentialBase
      defaultMaxDelay attempt := by
    unfold backoffDelay defaultBaseDelay defaultExponentialBase
      defaultMaxDelay
    exact le_min (by positivity) (by norm_num)
  have hdm : backoffDelay defaultBaseDelay defaultExponentialBase
      defaultMaxDelay attempt ≤ (60 : ℚ) := by
    unfold backoffDelay defaultMaxDelay
    exact min_le_right _ _
  unfold backoffTotalDelay
  refine ⟨by linarith, by linarith, ?_⟩
  have h60 : defaultMaxDelay = (60 : ℚ) := rfl
  rw [h60] at hj1 hdm ⊢
  linarith

/-- Witness for C8 at attempt 1 with zero jitter. -/
theorem exponential_backoff_delay_bounds_witness :
    ((0 : ℚ) ≤ 0 ∧
     (0 : ℚ) ≤ (1 / 10) * backoffDelay defaultBaseDelay
       defaultExponentialBase defaultMaxDelay 1) ∧
    (backoffDelay defaultBaseDelay defaultExponentialBase defaultMaxDelay
        1 ≤
      backoffTotalDelay defaultBaseDelay defaultExponentialBase
        defaultMaxDelay 1 0 ∧
     backoffTotalDelay defaultBaseDelay defaultExponentialBase
        defaultMaxDelay 1 0 ≤
      (11 / 10) * backoffDelay defaultBaseDelay defaultExponentialBase
        defaultMaxDelay 1 ∧
     backoffTotalDelay defaultBaseDelay defaultExponentialBase
        defaultMaxDelay 1 0 ≤ (11 / 10) * defaultMaxDelay) :=
  ⟨⟨le_refl 0, by norm_num [backoffDelay, defaultBaseDelay,
      defaultExponentialBase, defaultMaxDelay]⟩,
    exponential_backoff_delay_bounds 1 0 (le_refl 0)
      (by norm_num [backoffDelay, defaultBaseDelay, defaultExponentialBase,
        defaultMaxDelay])⟩

/-! ## Claims about page-artifact assembly -/

theorem filterMap_eq_map_filter (f : String → Option (List Nat))
    (ds : List String) :
    ds.filterMap f =
      (ds.filter (fun d => (f d).isSome)).map (fun d => (f d).getD []) := by
  induction ds with
  | nil => rfl
  | cons d ds ih =>
    cases hfd : f d <;>
      simp [List.filterMap_cons, List.filter_cons, hfd, ih]

/-- C1: whenever the page audio is recomputed (the collected unit list being
non-empty) after a synthesis (`_regenerate_page_audio`) or a move
(`_regenerate_page_audio_after_move`), the stored Page Artifact is the
concatenation, in current script order, of exactly those Unit Artifacts
that exist — missing units are skipped without a gap — prefixed on page 1
by the lead-in entry when its file exists. -/
theorem page_artifact_is_ordered_concat (cues : Option (List Nat))
    (page_number : Nat) (s : PageAudioState) (ds : List String)
    (hscript : s.script = some ds)
    (hne : ds.filterMap s.unitAudio ≠ []) :
    regenerate_page_audio_after_move cues page_number s =
      { s with pageAudio := some (merge_audio_files
          (leadInFiles cues page_number s.beigin ++
            ds.filterMap s.unitAudio)) } ∧
    (regenerate_page_audio cues page_number s).map (fun t => t.pageAudio) =
      .ok (some (merge_audio_files
        (leadInFiles cues page_number
            (copyCuesIfMissing cues page_number s.beigin) ++
          ds.filterMap s.unitAudio))) ∧
    ds.filterMap s.unitAudio =
      (ds.filter (fun d => (s.unitAudio d).isSome)).map
        (fun d => (s.unitAudio d).getD []) := by
  have hempty : ∀ l : List (List Nat),
      (l ++ ds.filterMap s.unitAudio).isEmpty = false := by
    intro l
    cases hl : l ++ ds.filterMap s.unitAudio with
    | nil => exact absurd (List.append_eq_nil.mp hl).2 hne
    | cons a as => rfl
  refine ⟨?_, ?_, filterMap_eq_map_filter s.unitAudio ds⟩
  · unfold regenerate_page_audio_after_move
    simp only [hscript, hempty, Bool.false_eq_true, if_false]
  · unfold regenerate_page_audio
    simp only [hscript, hempty, Bool.false_eq_true, if_false, Except.map]

/-- The unit-artifact store of the claim's `[A, B, C]` scenario: A and C
synthesized, B missing. -/
def abcUnits : String → Option (List Nat) :=
  fun d => if d = "A" then some [1] else if d = "C" then some [3] else none

/-- Page state for the `[A, B, C]` scenario on a non-opening page. -/
def abcPageState : PageAudioState :=
  { script := some ["A", "B", "C"], unitAudio := abcUnits, beigin := none,
    pageAudio := none }

/-- Witness for C1 on the `[A, B, C]` scenario with B missing: the merge
input evaluates to `concat(A, C) = [1, 3]`. -/
theorem page_artifact_is_ordered_concat_witness :
    (abcPageState.script = some ["A", "B", "C"] ∧
     ["A", "B", "C"].filterMap abcPageState.unitAudio ≠ []) ∧
    (regenerate_page_audio_after_move none 2 abcPageState =
      { abcPageState with pageAudio := some (merge_audio_files
          (leadInFiles none 2 abcPageState.beigin ++
            ["A", "B", "C"].filterMap abcPageState.unitAudio)) } ∧
     (regenerate_page_audio none 2 abcPageState).map (fun t => t.pageAudio) =
       .ok (some (merge_audio_files
         (leadInFiles none 2 (copyCuesIfMissing none 2 abcPageState.beigin) ++
           ["A", "B", "C"].filterMap abcPageState.unitAudio))) ∧
     ["A", "B", "C"].filterMap abcPageState.unitAudio =
       (["A", "B", "C"].filter
           (fun d => (abcPageState.unitAudio d).isSome)).map
         (fun d => (abcPageState.unitAudio d).getD [])) ∧
    merge_audio_files (leadInFiles none 2 abcPageState.beigin ++
      ["A", "B", "C"].filterMap abcPageState.unitAudio) = [1, 3] :=
  ⟨⟨rfl, by decide⟩,
    page_artifact_is_ordered_concat none 2 abcPageState ["A", "B", "C"] rfl
      (by decide),
    by decide⟩

/-- C7: when no unit artifact exists for the page and there is no lead-in
entry, regeneration (after a deletion, and likewise the synthesis-path
variant) takes the warning branch and leaves the whole state — in
particular the previously persisted Page Artifact — unchanged. -/
theorem empty_assembly_leaves_page_artifact (cues : Option (List Nat))
    (page_number : Nat) (s : PageAudioState) (ds : List String)
    (hscript : s.script = some ds)
    (hunits : ds.filterMap s.unitAudio = [])
    (hlead : leadInFiles cues page_number
      (copyCuesIfMissing cues page_number s.beigin) = []) :
    regenerate_page_audio_after_deletion cues page_number s = s ∧
    regenerate_page_audio cues page_number s = .ok s := by
  have hp : ¬ (page_number = 1 ∧ cues.isSome) := by
    intro hpc
    unfold leadInFiles copyCuesIfMissing at hlead
    rw [if_pos hpc, if_pos hpc] at hlead
    cases hb : s.beigin with
    | some b => rw [hb] at hlead; exact List.cons_ne_nil b [] hlead
    | none =>
      rw [hb] at hlead
      obtain ⟨c, hc⟩ := Option.isSome_iff_exists.mp hpc.2
      rw [hc] at hlead
      exact List.cons_ne_nil c [] hlead
  have hcopy : copyCuesIfMissing cues page_number s.beigin = s.beigin := by
    unfold copyCuesIfMissing
    rw [if_neg hp]
  have hlead2 : leadInFiles cues page_number s.beigin = [] := by
    unfold leadInFiles
    rw [if_neg hp]
  constructor
  · unfold regenerate_page_audio_after_deletion
      regenerate_page_audio_after_move
    simp only [hscript, hlead2, hunits, List.append_nil, List.isEmpty_nil,
      if_true]
  · unfold regenerate_page_audio
    simp only [hscript, hcopy, hlead2, hunits, List.append_nil,
      List.isEmpty_nil, if_true]
    rw [← hscript]

/-- A page state with one scripted dialogue whose artifact is missing, a
stale lead-in copy, and a previously persisted page artifact. -/
def stalePageState : PageAudioState :=
  { script := some ["A"], unitAudio := fun _ => none, beigin := some [7],
    pageAudio := some [9] }

/-- Witness for C7: on a non-opening page with no unit artifacts the
previously persisted page artifact survives regeneration untouched. -/
theorem empty_assembly_leaves_page_artifact_witness :
    (stalePageState.script = some ["A"] ∧
     ["A"].filterMap stalePageState.unitAudio = [] ∧
     leadInFiles (some [1]) 2
       (copyCuesIfMissing (some [1]) 2 stalePageState.beigin) = []) ∧
    (regenerate_page_audio_after_deletion (some [1]) 2 stalePageState =
      stalePageState ∧
     regenerate_page_audio (some [1]) 2 stalePageState =
      .ok stalePageState) :=
  ⟨⟨rfl, rfl, rfl⟩,
    empty_assembly_leaves_page_artifact (some [1]) 2 stalePageState ["A"]
      rfl rfl rfl⟩

end BananaLecture
